import Mathlib

/-!
Verification of `skycatalogs/objects/snana_object.py` (class `SnanaObject`):
the epoch-lookup/interpolation engine (`_find_mjd_interval`), the SED
interpolation (`_linear_interp_SED`, `_get_sed`) and the band-flux correction
pipeline (`get_LSST_flux`).

Modelling conventions:
* Python floats are modelled as rationals (`ℚ`); the transcendental
  `np.exp` is kept symbolic (see `FluxResult`), so every definition stays
  executable and every numeric fact is decidable.
* `None`-able Python values are `Option`s; Python exceptions are the
  `PyError` constructors of an `Except` result.
* The mutable per-object caches (`_mjds`, `_mjd_ix_l`, `_mjd_ix_u`,
  `_mjd_fraction`) are explicit state (`SnanaState`) threaded through the
  functions; functions additionally return a `Bool` flag recording whether
  the external HDF5 store was touched during the call.
* The HDF5 group for an object (`f[self._id]`) is a `SEDGroup`; dataset
  access by name goes through `SEDGroup.dataset2` / the record fields, so
  that a misspelled dataset name produces the `KeyError` the real library
  would raise.
-/

/-- Python exceptions that can arise in the modelled code paths. -/
inductive PyError where
  /-- `ValueError` raised by `_get_sed` when no mjd is available at all. -/
  | valueError
  /-- `TypeError` from comparing `None` with a number (bisect with `None`). -/
  | typeError
  /-- `KeyError` from a missing dataset name in the HDF5 file. -/
  | keyError
  /-- `SkyCatalogsRuntimeError('Negative flux')`. -/
  | skyCatalogsRuntimeError
  deriving DecidableEq

/-- Python truthiness of an optional float: `None` and `0.0` are falsy
(the `if not mjd:` test in `_find_mjd_interval`). -/
def truthy (x : Option ℚ) : Bool :=
  match x with
  | none => false
  | some q => decide (q ≠ 0)

/-- `bisect.bisect` (= `bisect_right`) from the Python standard library:
on a sorted list, the insertion point of `x`, i.e. the number of elements
`≤ x`. -/
def bisect (a : List ℚ) (x : ℚ) : Nat :=
  a.countP (fun y => decide (y ≤ x))

/-- The arithmetic core of `SnanaObject._find_mjd_interval` (lines 131-139):
`index = bisect.bisect(mjds, mjd)`, then the three-way branch on
`index == 0`, `index == len(mjds)`, and the interior case with the
interpolation fraction. -/
def findMjdIntervalCore (mjds : List ℚ) (mjd : ℚ) : Nat × Nat × Option ℚ :=
  if bisect mjds mjd = 0 then (0, 0, none)
  else if bisect mjds mjd = mjds.length then
    (mjds.length - 1, mjds.length - 1, none)
  else (bisect mjds mjd - 1, bisect mjds mjd,
    some ((mjd - mjds.getD (bisect mjds mjd - 1) 0) /
          (mjds.getD (bisect mjds mjd) 0 - mjds.getD (bisect mjds mjd - 1) 0)))

/-- The mutable per-object caches of `SnanaObject`: `_mjd_ix_l`, `_mjd_ix_u`,
`_mjd_fraction` (the bracket cache) and `_mjds` (the lazily loaded epoch
grid). All start out as `None` in `__init__`. (The `_lambda` wavelength
cache has no bearing on any modelled result and is omitted.) -/
structure SnanaState where
  mjd_ix_l : Option Nat
  mjd_ix_u : Option Nat
  mjd_fraction : Option ℚ
  mjds : Option (List ℚ)
  deriving DecidableEq

/-- The state of a freshly constructed `SnanaObject`. -/
def initState : SnanaState :=
  ⟨none, none, none, none⟩

/-- The `if store:` block at the end of `_find_mjd_interval`: write the
computed triple into the bracket cache. -/
def storeUpd (st : SnanaState) (r : Nat × Nat × Option ℚ) (store : Bool) :
    SnanaState :=
  if store then
    { st with
      mjd_ix_l := some r.1
      mjd_ix_u := some r.2.1
      mjd_fraction := r.2.2 }
  else st

/-- The non-cached tail of `_find_mjd_interval`: lazily load the epoch grid
from the file if `self._mjds is None` (the returned `Bool` records that
read), run `bisect` on the effective mjd — which raises `TypeError` when
that mjd is still `None` — and store the triple when `store` is set. -/
def fmiCompute (fileMjds : List ℚ) (st : SnanaState) (effMjd : Option ℚ)
    (store : Bool) :
    Except PyError ((Nat × Nat × Option ℚ) × SnanaState × Bool) :=
  match effMjd with
  | none => Except.error PyError.typeError
  | some q =>
    match st.mjds with
    | none =>
      Except.ok (findMjdIntervalCore fileMjds q,
        storeUpd { st with mjds := some fileMjds }
          (findMjdIntervalCore fileMjds q) store, true)
    | some m =>
      Except.ok (findMjdIntervalCore m q,
        storeUpd st (findMjdIntervalCore m q) store, false)

/-- The opening lines of `_find_mjd_interval`: `if not mjd:` substitutes
the collection's shared mjd with `store = True` (truthiness, so an
explicit `0.0` counts as absent); otherwise
`store = (mjd == self._belongs_to._mjd)`. Returns the pair
(effective mjd, store flag). -/
def effStore (collMjd : Option ℚ) (mjd : Option ℚ) : Option ℚ × Bool :=
  if truthy mjd then (mjd, decide (mjd = collMjd)) else (collMjd, true)

/-- `SnanaObject._find_mjd_interval(mjd=None)`. Arguments: the collection's
shared mjd (`self._belongs_to._mjd`), the epoch grid stored in the SED
file, the object's mutable state, and the optional `mjd` argument.
When `store` and the bracket cache is populated, the cached triple is
returned unchanged; otherwise the grid is lazily loaded and the bracket
computed (and stored when `store`). -/
def findMjdInterval (collMjd : Option ℚ) (fileMjds : List ℚ)
    (st : SnanaState) (mjd : Option ℚ) :
    Except PyError ((Nat × Nat × Option ℚ) × SnanaState × Bool) :=
  if (effStore collMjd mjd).2 && st.mjd_ix_l.isSome then
    Except.ok ((st.mjd_ix_l.getD 0, st.mjd_ix_u.getD 0, st.mjd_fraction),
      st, false)
  else
    fmiCompute fileMjds st (effStore collMjd mjd).1 (effStore collMjd mjd).2

/-- The HDF5 group `f[self._id]` for one object: datasets `mjd` (epoch
grid), `lambda` (wavelength grid, called `lam` since `lambda` is reserved)
and `flambda` (one flux-density row per epoch). -/
structure SEDGroup where
  mjd : List ℚ
  lam : List ℚ
  flambda : List (List ℚ)

/-- `h5py` 2-D dataset lookup by name inside an object's group: only the
name `"flambda"` is a real dataset; any other name (such as the misspelled
`"flamba"` appearing in `_linear_interp_SED`) raises `KeyError`, modelled
as `none`. -/
def SEDGroup.dataset2 (g : SEDGroup) (key : String) :
    Option (List (List ℚ)) :=
  if key = "flambda" then some g.flambda else none

/-- `SnanaObject._linear_interp_SED(mjd)`, returning the
(wavelength, flux-density) table handed to `galsim.LookupTable` /
`galsim.SED` (the continuous-spectrum wrapper is external and is modelled
by the table itself). When `mjd_ix_l == mjd_ix_u` the code reads
`f[self._id]['flamba'][mjd_ix_l]` — note the dataset name; otherwise it
interpolates `below + mjd_fraction * (above - below)` channel-wise between
the `flambda` rows at `mjd_ix_u - 1` and `mjd_ix_u`. -/
def linearInterpSED (collMjd : Option ℚ) (g : SEDGroup) (st : SnanaState)
    (mjd : Option ℚ) :
    Except PyError ((List ℚ × List ℚ) × SnanaState) :=
  match findMjdInterval collMjd g.mjd st mjd with
  | Except.error e => Except.error e
  | Except.ok ((l, u, frac), st1, _) =>
    if l = u then
      match g.dataset2 ("flamba") with
      | none => Except.error PyError.keyError
      | some rows => Except.ok ((g.lam, rows.getD l []), st1)
    else
      match g.dataset2 ("flambda") with
      | none => Except.error PyError.keyError
      | some rows =>
        Except.ok ((g.lam,
          List.zipWith (fun b a => b + frac.getD 0 * (a - b))
            (rows.getD (u - 1) []) (rows.getD u [])), st1)

/-- `SnanaObject._get_sed(mjd=None)`: `if mjd is None` substitute the
collection's shared mjd; raise `ValueError` when that is also `None`;
return `(None, 0.0)` when the mjd falls strictly outside
`[start_mjd, end_mjd]`; otherwise return the interpolated SED and `0.0`. -/
def getSed (startMjd endMjd : ℚ) (collMjd : Option ℚ) (g : SEDGroup)
    (st : SnanaState) (mjd : Option ℚ) :
    Except PyError (Option (List ℚ × List ℚ) × ℚ × SnanaState) :=
  match (match mjd with | none => collMjd | some q => some q) with
  | none => Except.error PyError.valueError
  | some q =>
    if q < startMjd ∨ q > endMjd then Except.ok (none, 0, st)
    else
      match linearInterpSED collMjd g st (some q) with
      | Except.error e => Except.error e
      | Except.ok (sed, st1) => Except.ok (some sed, 0, st1)

/-- Modelled from the spec: the generic baseline flux computation
(`BaseObject.get_LSST_flux`, not part of the source file) integrates the
object's interpolated, extinguished SED into a band flux; per the spec an
absent SED gives "implicitly zero flux upstream". The integrator itself is
an external collaborator, abstracted as `integ`. -/
def baselineFluxOfSed (sed : Option (List ℚ × List ℚ))
    (integ : List ℚ × List ℚ → ℚ) : ℚ :=
  match sed with
  | none => 0
  | some s => integ s

/-- The literal coefficient appearing in the source of
`SnanaObject.get_LSST_flux._flux_ratio`:
`np.exp(-0.921034037196184 * mag)`, i.e. `0.921034037196184` exactly. -/
def fluxRatioCoeff : ℚ :=
  921034037196184 / 10 ^ 15

/-- The coefficient the code's own comment (`# -0.9210340371976184 =
-np.log(10)/2.5.`) and the spec prescribe: `ln(10)/2.5` correctly rounded
to double precision, `0.9210340371976184` exactly. -/
def specFluxRatioCoeff : ℚ :=
  9210340371976184 / 10 ^ 16

/-- The value returned by `SnanaObject.get_LSST_flux`, kept symbolic in the
transcendental factor: `exact f` is a plain `return flux` (the zero
short-circuit and the missing-correction passthrough), while
`corrected f m` stands for `f * np.exp(-fluxRatioCoeff * m)`, the
`flux * _flux_ratio(mag_cor)` of the corrected return. -/
inductive FluxResult where
  | exact (flux : ℚ)
  | corrected (flux : ℚ) (magCor : ℚ)
  deriving DecidableEq

/-- `SnanaObject.get_LSST_flux(band, ...)` after the superclass baseline
flux has been computed. `cors` is the per-band magnitude-correction series
`f[self._id]['magcor_<band>']`, or `none` when that dataset is absent (the
`KeyError` path). Returns the flux, the new state, and whether the HDF5
store was opened after the early checks. Order as in the source: negative
check, zero short-circuit, `_find_mjd_interval`, correction lookup and
interpolation, multiplicative correction. -/
def getLSSTFlux (baseline : ℚ) (cors : Option (List ℚ))
    (collMjd : Option ℚ) (fileMjds : List ℚ) (st : SnanaState)
    (mjd : Option ℚ) :
    Except PyError (FluxResult × SnanaState × Bool) :=
  if baseline < 0 then Except.error PyError.skyCatalogsRuntimeError
  else if baseline = 0 then Except.ok (FluxResult.exact baseline, st, false)
  else
    match findMjdInterval collMjd fileMjds st mjd with
    | Except.error e => Except.error e
    | Except.ok ((l, u, frac), st1, _) =>
      match cors with
      | none => Except.ok (FluxResult.exact baseline, st1, true)
      | some cs =>
        Except.ok (FluxResult.corrected baseline
          (if l = u then cs.getD l 0
           else cs.getD l 0 + frac.getD 0 * (cs.getD u 0 - cs.getD l 0)),
          st1, true)

/-! ### Claim theorems -/

/-- Claim C1 (code fault, evaluated at the failing input): at the spec's
end-to-end input — baseline flux 100, correction table `[0, 1/5]`
bracketed at fraction `1/2` (grid `[10, 20, 30]`, query mjd 15) —
`get_LSST_flux` does compute the interpolated magnitude `1/10` and returns
`flux * exp(-fluxRatioCoeff * mag)`, but the coefficient baked into
`_flux_ratio` is the truncated literal `0.921034037196184`, which differs
from (is strictly below) the value `0.9210340371976184 = ln(10)/2.5`
required by the claim and by the code's own comment. -/
theorem C1_flux_ratio_coefficient :
    getLSSTFlux 100 (some [0, 1/5]) (some 15) [10, 20, 30] initState
        (some 15) =
      Except.ok (FluxResult.corrected 100 (1/10),
        ⟨some 0, some 1, some (1/2), some [10, 20, 30]⟩, true) ∧
    fluxRatioCoeff ≠ specFluxRatioCoeff ∧
    fluxRatioCoeff < specFluxRatioCoeff := by
  refine ⟨?_, ?_, ?_⟩
  · norm_num [getLSSTFlux, findMjdInterval, effStore, fmiCompute,
      findMjdIntervalCore, bisect, List.countP_cons, List.countP_nil,
      truthy, initState, storeUpd]
  · norm_num [fluxRatioCoeff, specFluxRatioCoeff]
  · norm_num [fluxRatioCoeff, specFluxRatioCoeff]

/-- Claim C2: the arithmetic core of `_find_mjd_interval` returns
`(0, 0, none)` when the insertion point is 0, clamps to the last index when
the insertion point equals the grid length, and otherwise returns
`(ip - 1, ip, (t - T[ip-1]) / (T[ip] - T[ip-1]))`; on grid `[10, 20, 30]`,
t = 15 yields `(0, 1, 1/2)`, t = 5 yields `(0, 0, -)` and t = 35 yields
`(2, 2, -)`. -/
theorem C2_locate_cases (mjds : List ℚ) (mjd : ℚ) :
    (bisect mjds mjd = 0 → findMjdIntervalCore mjds mjd = (0, 0, none)) ∧
    (bisect mjds mjd ≠ 0 → bisect mjds mjd = mjds.length →
      findMjdIntervalCore mjds mjd =
        (mjds.length - 1, mjds.length - 1, none)) ∧
    (bisect mjds mjd ≠ 0 → bisect mjds mjd ≠ mjds.length →
      findMjdIntervalCore mjds mjd =
        (bisect mjds mjd - 1, bisect mjds mjd,
         some ((mjd - mjds.getD (bisect mjds mjd - 1) 0) /
           (mjds.getD (bisect mjds mjd) 0 -
            mjds.getD (bisect mjds mjd - 1) 0)))) ∧
    findMjdIntervalCore [10, 20, 30] 15 = (0, 1, some (1/2)) ∧
    findMjdIntervalCore [10, 20, 30] 5 = (0, 0, none) ∧
    findMjdIntervalCore [10, 20, 30] 35 = (2, 2, none) := by
  refine ⟨?_, ?_, ?_, ?_, ?_, ?_⟩
  · intro h; simp [findMjdIntervalCore, h]
  · intro h0 hl
    simp [findMjdIntervalCore, h0, hl]
    intro h
    subst h
    rfl
  · intro h0 hl; simp [findMjdIntervalCore, h0, hl]
  · norm_num [findMjdIntervalCore, bisect, List.countP_cons, List.countP_nil]
  · norm_num [findMjdIntervalCore, bisect, List.countP_cons, List.countP_nil]
  · norm_num [findMjdIntervalCore, bisect, List.countP_cons, List.countP_nil]

/-- Witness for C2: the insertion-point-0 case discharged at grid
`[10, 20, 30]`, t = 5. -/
theorem C2_locate_cases_witness :
    findMjdIntervalCore [10, 20, 30] 5 = (0, 0, none) :=
  (C2_locate_cases [10, 20, 30] 5).1
    (by norm_num [bisect, List.countP_cons, List.countP_nil])

/-- The misspelled dataset name in the clamp branch of
`_linear_interp_SED` is not the stored dataset name. -/
theorem flamba_ne_flambda : ("flamba" : String) ≠ "flambda" := by decide

/-- Claim C3 (code fault, evaluated at the failing input): on grid
`[10, 20, 30]` with flux-density rows `[[1], [2], [3]]`, the boundary-clamp
queries t = 5 and t = 35 (where `mjd_ix_l == mjd_ix_u`) raise `KeyError`
instead of returning rows `[1]` and `[3]`: the clamp branch of
`_linear_interp_SED` reads the dataset name `"flamba"` — a typo for
`"flambda"`, the name used by the interpolation branch and stored in the
file — so the lookup fails. The interpolation branch itself works:
t = 15 yields the row `[3/2]`. -/
theorem C3_flamba_typo :
    linearInterpSED (some 5) ⟨[10, 20, 30], [5000], [[1], [2], [3]]⟩
        initState (some 5) = Except.error PyError.keyError ∧
    linearInterpSED (some 35) ⟨[10, 20, 30], [5000], [[1], [2], [3]]⟩
        initState (some 35) = Except.error PyError.keyError ∧
    SEDGroup.dataset2 ⟨[10, 20, 30], [5000], [[1], [2], [3]]⟩ ("flamba") =
      none ∧
    SEDGroup.dataset2 ⟨[10, 20, 30], [5000], [[1], [2], [3]]⟩ ("flambda") =
      some [[1], [2], [3]] ∧
    linearInterpSED (some 15) ⟨[10, 20, 30], [5000], [[1], [2], [3]]⟩
        initState (some 15) =
      Except.ok (([5000], [3/2]),
        ⟨some 0, some 1, some (1/2), some [10, 20, 30]⟩) := by
  refine ⟨?_, ?_, ?_, ?_, ?_⟩
  · norm_num [linearInterpSED, SEDGroup.dataset2, findMjdInterval, effStore,
      fmiCompute, findMjdIntervalCore, bisect, List.countP_cons,
      List.countP_nil, truthy, initState, storeUpd, flamba_ne_flambda]
  · norm_num [linearInterpSED, SEDGroup.dataset2, findMjdInterval, effStore,
      fmiCompute, findMjdIntervalCore, bisect, List.countP_cons,
      List.countP_nil, truthy, initState, storeUpd, flamba_ne_flambda]
  · rfl
  · rfl
  · norm_num [linearInterpSED, SEDGroup.dataset2, findMjdInterval, effStore,
      fmiCompute, findMjdIntervalCore, bisect, List.countP_cons,
      List.countP_nil, truthy, initState, storeUpd, flamba_ne_flambda]

/-- Claim C4: once the bracket cache is populated, any locate call at the
shared evaluation time — whether the mjd argument is omitted or passed
explicitly as the shared value — returns the cached triple unchanged,
leaves the state untouched and performs no storage read. -/
theorem C4_cached_bracket (collMjd : Option ℚ) (fileMjds : List ℚ)
    (st : SnanaState) (mjd : Option ℚ) (l u : Nat)
    (hl : st.mjd_ix_l = some l) (hu : st.mjd_ix_u = some u)
    (hmjd : mjd = none ∨ mjd = collMjd) :
    findMjdInterval collMjd fileMjds st mjd =
      Except.ok ((l, u, st.mjd_fraction), st, false) := by
  rcases hmjd with h | h
  · subst h
    simp [findMjdInterval, effStore, truthy, hl, hu]
  · subst h
    by_cases ht : truthy mjd <;> simp [findMjdInterval, effStore, ht, hl, hu]

/-- Witness for C4: a populated cache at shared time 15 is returned
unchanged for an omitted mjd argument. -/
theorem C4_cached_bracket_witness :
    findMjdInterval (some 15) [10, 20, 30]
        ⟨some 0, some 1, some (1/2), some [10, 20, 30]⟩ none =
      Except.ok ((0, 1, some (1/2)),
        ⟨some 0, some 1, some (1/2), some [10, 20, 30]⟩, false) :=
  C4_cached_bracket (some 15) [10, 20, 30]
    ⟨some 0, some 1, some (1/2), some [10, 20, 30]⟩ none 0 1 rfl rfl
    (Or.inl rfl)

/-- Claim C6 (with the baseline flux of an absent SED modelled from the
spec, see `baselineFluxOfSed`): a query time strictly outside
`[start_mjd, end_mjd]` makes `_get_sed` return `(None, 0.0)` without error
and without touching the state, and the band flux computed from that
absent SED — baseline 0 — is exactly 0, with no storage access. -/
theorem C6_outside_window (startMjd endMjd t : ℚ) (collMjd : Option ℚ)
    (g : SEDGroup) (st : SnanaState) (integ : List ℚ × List ℚ → ℚ)
    (cors : Option (List ℚ)) (mjd2 : Option ℚ)
    (h : t < startMjd ∨ t > endMjd) :
    getSed startMjd endMjd collMjd g st (some t) = Except.ok (none, 0, st) ∧
    getLSSTFlux (baselineFluxOfSed none integ) cors collMjd g.mjd st mjd2 =
      Except.ok (FluxResult.exact 0, st, false) := by
  constructor
  · simp [getSed, h]
  · simp [getLSSTFlux, baselineFluxOfSed]

/-- Witness for C6: start 100, end 200, query 50. -/
theorem C6_outside_window_witness :
    getSed 100 200 none ⟨[10, 20, 30], [5000], [[1], [2], [3]]⟩ initState
        (some 50) = Except.ok (none, 0, initState) ∧
    getLSSTFlux (baselineFluxOfSed none (fun _ => 7)) none none [10, 20, 30]
        initState (some 50) =
      Except.ok (FluxResult.exact 0, initState, false) :=
  C6_outside_window 100 200 50 none ⟨[10, 20, 30], [5000], [[1], [2], [3]]⟩
    initState (fun _ => 7) none (some 50) (Or.inl (by norm_num))

/-- An error escaping `fmiCompute` is always the `TypeError` from running
the bisection on a `None` mjd. -/
theorem fmiCompute_error_eq (fileMjds : List ℚ) (st : SnanaState)
    (effMjd : Option ℚ) (store : Bool) (e : PyError)
    (h : fmiCompute fileMjds st effMjd store = Except.error e) :
    e = PyError.typeError := by
  cases effMjd with
  | none =>
    simp [fmiCompute] at h
    exact h.symm
  | some q => cases hm : st.mjds <;> simp [fmiCompute, hm] at h

/-- An error escaping `_find_mjd_interval` is always the `TypeError` from
running the bisection on a `None` mjd. -/
theorem findMjdInterval_error_eq (collMjd : Option ℚ) (fileMjds : List ℚ)
    (st : SnanaState) (mjd : Option ℚ) (e : PyError)
    (h : findMjdInterval collMjd fileMjds st mjd = Except.error e) :
    e = PyError.typeError := by
  unfold findMjdInterval at h
  split at h
  · exact absurd h (by simp)
  · exact fmiCompute_error_eq _ _ _ _ _ h

/-- Claim C7: `get_LSST_flux` raises the negative-flux runtime error
exactly when the upstream baseline flux is negative; every other path
either succeeds or fails with a different exception, and a negative
baseline is never clamped or corrected. -/
theorem C7_negative_flux_iff (baseline : ℚ) (cors : Option (List ℚ))
    (collMjd : Option ℚ) (fileMjds : List ℚ) (st : SnanaState)
    (mjd : Option ℚ) :
    getLSSTFlux baseline cors collMjd fileMjds st mjd =
      Except.error PyError.skyCatalogsRuntimeError ↔ baseline < 0 := by
  by_cases h : baseline < 0
  · simp [getLSSTFlux, h]
  · simp only [getLSSTFlux, if_neg h]
    by_cases h0 : baseline = 0
    · simp [h0, h]
    · simp only [if_neg h0]
      cases hf : findMjdInterval collMjd fileMjds st mjd with
      | error e =>
        have he := findMjdInterval_error_eq _ _ _ _ _ hf
        subst he
        simp [h]
      | ok v =>
        obtain ⟨⟨l, u, fr⟩, st1, b⟩ := v
        cases cors <;> simp [h]

/-- With a nonzero explicit mjd argument, `_find_mjd_interval` always
succeeds. -/
theorem findMjdInterval_some_ok (collMjd : Option ℚ) (fileMjds : List ℚ)
    (st : SnanaState) (t : ℚ) (ht : t ≠ 0) :
    ∃ r st1 b, findMjdInterval collMjd fileMjds st (some t) =
      Except.ok (r, st1, b) := by
  have htr : truthy (some t) = true := by simp [truthy, ht]
  unfold findMjdInterval
  by_cases hc : ((effStore collMjd (some t)).2 && st.mjd_ix_l.isSome) = true
  · rw [if_pos hc]
    exact ⟨_, _, _, rfl⟩
  · rw [if_neg hc]
    have heff : (effStore collMjd (some t)).1 = some t := by
      simp [effStore, htr]
    rw [heff]
    cases hm : st.mjds with
    | none =>
      exact ⟨findMjdIntervalCore fileMjds t,
        storeUpd { st with mjds := some fileMjds }
          (findMjdIntervalCore fileMjds t) (effStore collMjd (some t)).2,
        true, by simp [fmiCompute, hm]⟩
    | some m =>
      exact ⟨findMjdIntervalCore m t,
        storeUpd st (findMjdIntervalCore m t) (effStore collMjd (some t)).2,
        false, by simp [fmiCompute, hm]⟩

/-- Claim C8: a baseline flux of exactly 0 short-circuits `get_LSST_flux`
to exactly 0 with no storage access at all, and a positive baseline whose
band has no magnitude-correction series is returned unmodified without
error (the store is consulted, but the missing series is tolerated). -/
theorem C8_zero_and_missing_correction (baseline : ℚ)
    (cors : Option (List ℚ)) (collMjd : Option ℚ) (fileMjds : List ℚ)
    (st : SnanaState) (mjd : Option ℚ) (t : ℚ)
    (hpos : 0 < baseline) (ht : t ≠ 0) :
    getLSSTFlux 0 cors collMjd fileMjds st mjd =
      Except.ok (FluxResult.exact 0, st, false) ∧
    ∃ st1, getLSSTFlux baseline none collMjd fileMjds st (some t) =
      Except.ok (FluxResult.exact baseline, st1, true) := by
  constructor
  · simp [getLSSTFlux]
  · have h1 : ¬ baseline < 0 := not_lt.mpr hpos.le
    have h0 : baseline ≠ 0 := ne_of_gt hpos
    obtain ⟨r, st1, b, hf⟩ :=
      findMjdInterval_some_ok collMjd fileMjds st t ht
    refine ⟨st1, ?_⟩
    obtain ⟨l, ⟨u, fr⟩⟩ := r
    simp [getLSSTFlux, h1, h0, hf]

/-- Witness for C8: baseline 7 at explicit time 15 with no correction
series for the band. -/
theorem C8_zero_and_missing_correction_witness :
    getLSSTFlux 0 none none [10, 20, 30] initState none =
      Except.ok (FluxResult.exact 0, initState, false) ∧
    ∃ st1, getLSSTFlux 7 none none [10, 20, 30] initState (some 15) =
      Except.ok (FluxResult.exact 7, st1, true) :=
  C8_zero_and_missing_correction 7 none none [10, 20, 30] initState none 15
    (by norm_num) (by norm_num)

/-- Counterexample for C9: with the mjd argument omitted, the shared time
unset and an empty bracket cache, `_find_mjd_interval` does not raise the
missing-time error (the `ValueError` that `_get_sed` raises in this
situation): the unset time flows into the bisection and the call fails
with a `TypeError` instead. -/
theorem C9_locate_missing_time_counterexample :
    findMjdInterval none [10, 20, 30] initState none =
      Except.error PyError.typeError ∧
    PyError.typeError ≠ PyError.valueError := by
  constructor
  · rfl
  · simp

/-- Claim C9 (amended): with the mjd argument omitted, both `_get_sed` and
`_find_mjd_interval` substitute the collection's shared evaluation time
(calls with `mjd=None` and with the shared value coincide); when the
shared time is also unset, `_get_sed` raises the missing-time `ValueError`,
while `_find_mjd_interval` (with an empty bracket cache) instead fails
with a `TypeError` from bisecting on `None`. -/
theorem C9_shared_time_fallback (startMjd endMjd c : ℚ) (g : SEDGroup)
    (st : SnanaState) (fileMjds : List ℚ)
    (hcache : st.mjd_ix_l = none) :
    getSed startMjd endMjd (some c) g st none =
      getSed startMjd endMjd (some c) g st (some c) ∧
    findMjdInterval (some c) fileMjds st none =
      findMjdInterval (some c) fileMjds st (some c) ∧
    getSed startMjd endMjd none g st none = Except.error PyError.valueError ∧
    findMjdInterval none fileMjds st none = Except.error PyError.typeError := by
  refine ⟨rfl, ?_, rfl, ?_⟩
  · by_cases hc : c = 0
    · subst hc; rfl
    · have htr : truthy (some c) = true := by simp [truthy, hc]
      have : effStore (some c) (some c) = effStore (some c) none := by
        simp [effStore, htr, truthy]
      simp [findMjdInterval, this]
  · simp [findMjdInterval, effStore, truthy, hcache, fmiCompute]

/-- Witness for C9 (amended): discharged at shared time 15 with a fresh
object state. -/
theorem C9_shared_time_fallback_witness :
    getSed 100 200 none ⟨[10, 20, 30], [5000], [[1], [2], [3]]⟩ initState
        none = Except.error PyError.valueError ∧
    findMjdInterval none [10, 20, 30] initState none =
      Except.error PyError.typeError :=
  ⟨(C9_shared_time_fallback 100 200 15
      ⟨[10, 20, 30], [5000], [[1], [2], [3]]⟩ initState [10, 20, 30]
      rfl).2.2.1,
   (C9_shared_time_fallback 100 200 15
      ⟨[10, 20, 30], [5000], [[1], [2], [3]]⟩ initState [10, 20, 30]
      rfl).2.2.2⟩

/-- Claim C10: because `_find_mjd_interval` tests its argument with
truthiness (`if not mjd:`) rather than an `is None` test, an explicit mjd
of `0.0` is treated exactly like an omitted argument: the shared
evaluation time is substituted (and the shared bracket cache may be
returned or populated). Concretely, with shared time 15 on grid
`[10, 20, 30]`, a call with `mjd=0.0` returns the bracket `(0, 1, 1/2)`
for time 15 — not the bracket `(0, 0, -)` that time `0.0` itself would
produce. -/
theorem C10_zero_mjd_truthiness (collMjd : Option ℚ) (fileMjds : List ℚ)
    (st : SnanaState) :
    findMjdInterval collMjd fileMjds st (some 0) =
      findMjdInterval collMjd fileMjds st none ∧
    findMjdInterval (some 15) [10, 20, 30] initState (some 0) =
      Except.ok ((0, 1, some (1/2)),
        ⟨some 0, some 1, some (1/2), some [10, 20, 30]⟩, true) ∧
    findMjdIntervalCore [10, 20, 30] 0 = (0, 0, none) := by
  refine ⟨rfl, ?_, ?_⟩
  · norm_num [findMjdInterval, effStore, fmiCompute, findMjdIntervalCore,
      bisect, List.countP_cons, List.countP_nil, truthy, initState,
      storeUpd]
  · norm_num [findMjdIntervalCore, bisect, List.countP_cons,
      List.countP_nil]

/-- For a strictly ascending list, the element at index `i` is `≤ t`
exactly when `i` lies below the insertion point `bisect T t`. -/
theorem getD_le_iff_lt_bisect (t : ℚ) :
    ∀ (T : List ℚ), List.Sorted (· < ·) T →
      ∀ i, i < T.length → (T.getD i 0 ≤ t ↔ i < bisect T t) := by
  intro T
  induction T with
  | nil =>
    intro _ i hi
    simp at hi
  | cons x xs ih =>
    intro hs i hi
    obtain ⟨hx, hxs⟩ := List.sorted_cons.mp hs
    by_cases hxt : x ≤ t
    · cases i with
      | zero =>
        simp [bisect, List.countP_cons, hxt]
      | succ j =>
        have hj : j < xs.length := by simpa using hi
        have hiff := ih hxs j hj
        simp only [List.getD_cons_succ, bisect, List.countP_cons, hxt,
          decide_True, if_true] at hiff ⊢
        rw [hiff]
        omega
    · have hzero : bisect (x :: xs) t = 0 := by
        simp only [bisect, List.countP_eq_zero]
        intro y hy
        rcases List.mem_cons.mp hy with rfl | hmem
        · simpa using hxt
        · have hlt : x < y := hx y hmem
          have hnle : ¬ y ≤ t :=
            fun hyt => hxt (le_of_lt (lt_of_lt_of_le hlt hyt))
          simpa using hnle
      rw [hzero]
      simp only [Nat.not_lt_zero, iff_false]
      cases i with
      | zero => simpa using hxt
      | succ j =>
        have hj : j < xs.length := by simpa using hi
        simp only [List.getD_cons_succ]
        have hmem : xs.getD j 0 ∈ xs := by
          rw [List.getD_eq_getElem xs 0 hj]
          exact List.getElem_mem hj
        have hlt : x < xs.getD j 0 := hx _ hmem
        intro hle
        exact hxt (le_of_lt (lt_of_lt_of_le hlt hle))

/-- Strictly ascending lists have strictly increasing entries. -/
theorem sorted_getD_lt (T : List ℚ) (hs : List.Sorted (· < ·) T)
    {i j : Nat} (hij : i < j) (hj : j < T.length) :
    T.getD i 0 < T.getD j 0 := by
  have hi : i < T.length := lt_trans hij hj
  rw [List.getD_eq_getElem T 0 hi, List.getD_eq_getElem T 0 hj]
  have h2 := @List.Sorted.rel_get_of_lt ℚ (· < ·) T hs ⟨i, hi⟩ ⟨j, hj⟩
    (Fin.mk_lt_mk.mpr hij)
  simpa [List.get_eq_getElem] using h2

/-- Strictly ascending lists have monotone entries. -/
theorem sorted_getD_le (T : List ℚ) (hs : List.Sorted (· < ·) T)
    {i j : Nat} (hij : i ≤ j) (hj : j < T.length) :
    T.getD i 0 ≤ T.getD j 0 := by
  rcases eq_or_lt_of_le hij with rfl | h
  · exact le_refl _
  · exact (sorted_getD_lt T hs h hj).le

/-- Counterexample for C5: on the sorted grid `[10, 20, 30]` the query
t = 30 lies inside `[T[0], T[-1]]` and yet locate clamps,
`lower_index == upper_index == 2` — so "`lower_index == upper_index`
exactly at the clamped boundaries when `t` is outside that range" is
false: the clamp also fires at `t` equal to the last grid point. -/
theorem C5_boundary_counterexample :
    findMjdIntervalCore [10, 20, 30] 30 = (2, 2, none) ∧
    List.Sorted (· < ·) ([10, 20, 30] : List ℚ) ∧
    ¬ ((30:ℚ) < ([10, 20, 30] : List ℚ).getD 0 0 ∨
       ([10, 20, 30] : List ℚ).getD 2 0 < (30:ℚ)) := by
  refine ⟨?_, ?_, ?_⟩
  · norm_num [findMjdIntervalCore, bisect, List.countP_cons,
      List.countP_nil]
  · norm_num [List.sorted_cons]
  · norm_num

/-- Claim C5 (amended): for every nonempty strictly ascending grid `T` and
query `t`, the triple `(l, u, fr)` returned by the locate core satisfies
`l ≤ u ≤ len(T)-1`; `T[l] ≤ t ≤ T[u]` whenever `t ∈ [T[0], T[-1]]`; and
`fr ∈ [0, 1]` whenever `l ≠ u`. The clamp characterisation is amended:
`l == u` holds exactly when `t < T[0]` or `t ≥ T[-1]` — i.e. also at the
last grid point itself, not only when `t` is outside `[T[0], T[-1]]`. -/
theorem C5_locate_invariants (T : List ℚ) (t : ℚ) (l u : Nat)
    (fr : Option ℚ) (hne : T ≠ []) (hs : List.Sorted (· < ·) T)
    (hr : findMjdIntervalCore T t = (l, u, fr)) :
    l ≤ u ∧ u ≤ T.length - 1 ∧
    (T.getD 0 0 ≤ t → t ≤ T.getD (T.length - 1) 0 →
      T.getD l 0 ≤ t ∧ t ≤ T.getD u 0) ∧
    (l = u ↔ t < T.getD 0 0 ∨ T.getD (T.length - 1) 0 ≤ t) ∧
    (l ≠ u → ∃ f, fr = some f ∧ 0 ≤ f ∧ f ≤ 1) := by
  have hlen : 0 < T.length := List.length_pos.mpr hne
  have hkey := getD_le_iff_lt_bisect t T hs
  have hkle : bisect T t ≤ T.length := List.countP_le_length _
  unfold findMjdIntervalCore at hr
  by_cases h0 : bisect T t = 0
  · rw [if_pos h0] at hr
    injection hr with ha hb
    injection hb with hb hc
    subst ha hb hc
    have hnle : ¬ T.getD 0 0 ≤ t := by
      intro hle
      have := (hkey 0 hlen).mp hle
      omega
    refine ⟨le_refl _, Nat.zero_le _, ?_, ?_, ?_⟩
    · intro h1 _
      exact absurd h1 hnle
    · exact iff_of_true rfl (Or.inl (not_le.mp hnle))
    · intro hcon
      exact absurd rfl hcon
  · rw [if_neg h0] at hr
    by_cases hL : bisect T t = T.length
    · rw [if_pos hL] at hr
      injection hr with ha hb
      injection hb with hb hc
      subst ha hb hc
      have hlast : T.getD (T.length - 1) 0 ≤ t := by
        refine (hkey (T.length - 1) (by omega)).mpr ?_
        omega
      refine ⟨le_refl _, le_refl _, ?_, ?_, ?_⟩
      · intro _ h2
        exact ⟨hlast, h2⟩
      · exact iff_of_true rfl (Or.inr hlast)
      · intro hcon
        exact absurd rfl hcon
    · rw [if_neg hL] at hr
      injection hr with ha hb
      injection hb with hb hc
      subst ha hb hc
      have hk1 : 0 < bisect T t := Nat.pos_of_ne_zero h0
      have hkN : bisect T t < T.length := lt_of_le_of_ne hkle hL
      have hlow : T.getD (bisect T t - 1) 0 ≤ t := by
        refine (hkey (bisect T t - 1) (by omega)).mpr ?_
        omega
      have hhigh : t < T.getD (bisect T t) 0 := by
        by_contra hcon
        have := (hkey (bisect T t) hkN).mp (not_lt.mp hcon)
        omega
      have hab : T.getD (bisect T t - 1) 0 < T.getD (bisect T t) 0 :=
        sorted_getD_lt T hs (by omega) hkN
      refine ⟨Nat.sub_le _ _, by omega, ?_, ?_, ?_⟩
      · intro _ _
        exact ⟨hlow, hhigh.le⟩
      · refine iff_of_false (by omega) ?_
        rintro (hlt | hge)
        · have h00 : T.getD 0 0 ≤ T.getD (bisect T t - 1) 0 :=
            sorted_getD_le T hs (Nat.zero_le _) (by omega)
          exact absurd (le_trans h00 hlow) (not_le.mpr hlt)
        · have := (hkey (T.length - 1) (by omega)).mp hge
          omega
      · intro _
        refine ⟨_, rfl, ?_, ?_⟩
        · exact div_nonneg (by linarith) (by linarith)
        · rw [div_le_one (by linarith)]
          linarith

/-- Witness for C5 (amended): the bracket-containment conclusion
discharged on grid `[10, 20, 30]` at t = 15. -/
theorem C5_locate_invariants_witness :
    ([10, 20, 30] : List ℚ).getD 0 0 ≤ (15:ℚ) ∧
    (15:ℚ) ≤ ([10, 20, 30] : List ℚ).getD 1 0 :=
  (C5_locate_invariants [10, 20, 30] 15 0 1 (some (1/2)) (by simp)
    (by norm_num [List.sorted_cons])
    (by norm_num [findMjdIntervalCore, bisect, List.countP_cons,
      List.countP_nil])).2.2.1 (by norm_num) (by norm_num)
